import Mathlib

/-!
Shallow embedding of `sodiumoxide_extras` (src/src/lib.rs): a seeded-PRNG
injection layer for libsodium's `randombytes` interface.

Machine integers (`u32`, `u8`) are modelled as `Nat` reduced modulo `2^32`
(resp. `2^8`) wherever the Rust code computes with wrapping semantics.

The per-thread `XorShiftRng` (the external `rand 0.3` crate's generator,
consumed by lib.rs via `XorShiftRng::from_seed` / `Rng::gen`) is embedded
concretely: the Marsaglia xorshift128 step used by that crate, where a
`gen::<u32>()` draw is one `next_u32` call and a `gen::<u8>()` draw is one
`next_u32` call truncated to the low byte.

The process state visible to the claims consists of
  * `INIT_RESULT : Mutex<Option<i32>>`            (lib.rs:63)
  * `RANDOM_BYTES_IMPL.seed : [u32; 4]`           (lib.rs:64, 73)
  * the `thread_local!` `RNG` slots               (lib.rs:67-68)
and is modelled by `ProcState` below, with thread-local slots as a map from
thread id to an optional generator state (`none` = not yet lazily created).
The FFI callbacks `ffi::random` (lib.rs:124-126) and `ffi::buf`
(lib.rs:130-139) and the entry point `init_with_rng` (lib.rs:159-188) are
embedded as explicit state-passing functions.

The host library (libsodium) is external: `randombytes_set_implementation`
and `sodium_init` are modelled by their integer result codes, passed as
parameters, together with the number of re-entrant byte draws `sodium_init`
performs through the `buf` callback on the calling thread before returning.
The caller-supplied entropy source (`rng: &mut T` with `T: Rng`) is modelled
as a stream of 32-bit values plus a cursor position.
-/

/-- Reduce a natural number modulo `2^32`, the wrapping semantics of `u32`. -/
def mask32 (n : Nat) : Nat := n % 4294967296

/-- A `[u32; 4]` seed value (lib.rs:73 `seed: [u32; 4]`). -/
structure Seed where
  s0 : Nat
  s1 : Nat
  s2 : Nat
  s3 : Nat
deriving DecidableEq

/-- State of `rand::XorShiftRng` (rand 0.3), the external generator behind
the `thread_local!` `RNG` of lib.rs:67-68: four 32-bit words. -/
structure XorShiftRng where
  x : Nat
  y : Nat
  z : Nat
  w : Nat
deriving DecidableEq

/-- `XorShiftRng::from_seed(seed)` of rand 0.3: the four seed words become
the four state words. Inputs are masked to 32 bits. -/
def XorShiftRng.fromSeed (s : Seed) : XorShiftRng :=
  ⟨mask32 s.s0, mask32 s.s1, mask32 s.s2, mask32 s.s3⟩

/-- One `next_u32` step of rand 0.3's `XorShiftRng` (Marsaglia xorshift128):
`t = x ^ (x << 11)` (wrapping), the state rotates, and the new `w` is
`w ^ (w >> 19) ^ (t ^ (t >> 8))`, which is also the output. -/
def XorShiftRng.nextU32 (r : XorShiftRng) : Nat × XorShiftRng :=
  let t := mask32 (Nat.xor r.x (mask32 (r.x <<< 11)))
  let w2 := mask32 (Nat.xor (Nat.xor r.w (r.w >>> 19)) (Nat.xor t (t >>> 8)))
  (w2, ⟨r.y, r.z, r.w, w2⟩)

/-- A `gen::<u8>()` draw (rand 0.3): one `next_u32` call, truncated to the
low byte. Used by `ffi::buf` for each byte written (lib.rs:136). -/
def XorShiftRng.genU8 (r : XorShiftRng) : Nat × XorShiftRng :=
  let p := r.nextU32
  (p.1 % 256, p.2)

/-- Advance a generator by `n` successive `next_u32` steps. -/
def XorShiftRng.steps (r : XorShiftRng) : Nat → XorShiftRng
  | 0 => r
  | n + 1 => XorShiftRng.steps r.nextU32.2 n

/-- The list of the first `n` 32-bit outputs of a generator. -/
def XorShiftRng.u32Trace (r : XorShiftRng) : Nat → List Nat
  | 0 => []
  | n + 1 => r.nextU32.1 :: XorShiftRng.u32Trace r.nextU32.2 n

/-- The `i`-th (0-based) 32-bit output of a generator. -/
def XorShiftRng.nthU32 (r : XorShiftRng) (i : Nat) : Nat :=
  (r.steps i).nextU32.1

/-- The `i`-th (0-based) byte output of a generator under successive
`gen::<u8>()` draws: the low byte of the `i`-th 32-bit output. -/
def XorShiftRng.byteAt (r : XorShiftRng) (i : Nat) : Nat :=
  (r.steps i).nextU32.1 % 256

/-- Process-wide state of the crate: `INIT_RESULT` (lib.rs:63),
`RANDOM_BYTES_IMPL.seed` (lib.rs:64,73), and the `thread_local!` `RNG`
slots (lib.rs:67-68), indexed by thread id; `none` means the slot has not
yet been lazily constructed on that thread. The constant `name` string and
the function-pointer table of `RandomBytesImpl` carry no claim-relevant
state and are not modelled. -/
structure ProcState where
  initResult : Option Int
  registrySeed : Seed
  threads : Nat → Option XorShiftRng

/-- Read the calling thread's generator, lazily constructing it from the
registry's current seed if the slot is empty — the initializer of the
`thread_local!` declaration `XorShiftRng::from_seed(RANDOM_BYTES_IMPL.lock().seed)`
(lib.rs:67-68). -/
def getThreadRng (s : ProcState) (t : Nat) : XorShiftRng :=
  match s.threads t with
  | some r => r
  | none => XorShiftRng.fromSeed s.registrySeed

/-- Store a generator state into the calling thread's slot. -/
def setThreadRng (s : ProcState) (t : Nat) (r : XorShiftRng) : ProcState :=
  { s with threads := fun t2 => if t2 = t then some r else s.threads t2 }

/-- The `ffi::random` callback (lib.rs:124-126):
`RNG.with(|rng| rng.borrow_mut().gen())` — one `u32` draw from the calling
thread's generator, which is lazily created and then advanced in place. -/
def ffiRandom (s : ProcState) (t : Nat) : Nat × ProcState :=
  let p := (getThreadRng s t).nextU32
  (p.1, setThreadRng s t p.2)

/-- The write loop of `ffi::buf` (lib.rs:135-137):
`for i in 0..size { *ptr.offset(i) = rng.gen(); }` — recursion on the
remaining size, writing the next byte at the current address and moving the
address up by one. Memory is a map from byte address to byte value. -/
def bufWrite : XorShiftRng → (Nat → Nat) → Nat → Nat → ((Nat → Nat) × XorShiftRng)
  | r, mem, _, 0 => (mem, r)
  | r, mem, ptr, n + 1 =>
    let p := r.genU8
    bufWrite p.2 (fun a => if a = ptr then p.1 else mem a) (ptr + 1) n

/-- The `ffi::buf` callback (lib.rs:130-139): clones the calling thread's
generator cell, fills `size` bytes starting at `ptr` with successive
`gen::<u8>()` draws, and leaves the advanced generator in the thread slot. -/
def ffiBuf (s : ProcState) (t : Nat) (mem : Nat → Nat) (ptr size : Nat) :
    (Nat → Nat) × ProcState :=
  let p := bufWrite (getThreadRng s t) mem ptr size
  (p.1, setThreadRng s t p.2)

/-- The list of outputs of `n` successive `ffi::random` calls on thread `t`. -/
def wordTrace : ProcState → Nat → Nat → List Nat
  | _, _, 0 => []
  | s, t, n + 1 =>
    let p := ffiRandom s t
    p.1 :: wordTrace p.2 t n

/-- The caller-supplied entropy source of `init_with_rng<T: Rng>`: a
deterministic `Rng` is its output sequence, modelled as a stream of 32-bit
values together with a cursor marking how many values have been drawn. -/
structure EntropySrc where
  stream : Nat → Nat
  pos : Nat

/-- One `rng.gen()` draw from the entropy source. -/
def EntropySrc.gen (e : EntropySrc) : Nat × EntropySrc :=
  (e.stream e.pos, ⟨e.stream, e.pos + 1⟩)

/-- The seed `[rng.gen(), rng.gen(), rng.gen(), rng.gen()]` that
`init_with_rng` derives (lib.rs:160): the next four values of the entropy
source, in draw order. -/
def derivedSeed (e : EntropySrc) : Seed :=
  ⟨e.stream e.pos, e.stream (e.pos + 1), e.stream (e.pos + 2), e.stream (e.pos + 3)⟩

/-- Effect on the thread-local state of the re-entrant draws `sodium_init`
makes through the `buf` callback on the calling thread (lib.rs:180-181):
`k` byte draws, each advancing the thread's generator by one `next_u32`
step (lazily creating it from the registry seed if absent). -/
def advanceThread (s : ProcState) (t : Nat) (k : Nat) : ProcState :=
  setThreadRng s t ((getThreadRng s t).steps k)

/-- `init_with_rng` (lib.rs:159-188), called on thread `t` with entropy
source `e`. The host library is external, so its two calls are parameters:
`registerResult` is the code returned by
`randombytes_set_implementation`, and when that code is `0`, `sodium_init`
runs, performs `sodiumInitDraws` re-entrant byte draws through `buf` on the
calling thread, and returns `sodiumInitCode`. Returns the `Result<(), i32>`
(as `Except Int Unit`), the new process state, and the advanced entropy
source. -/
def initWithRng (s : ProcState) (t : Nat) (e : EntropySrc)
    (registerResult sodiumInitCode : Int) (sodiumInitDraws : Nat) :
    (Except Int Unit) × ProcState × EntropySrc :=
  let p0 := e.gen
  let p1 := p0.2.gen
  let p2 := p1.2.gen
  let p3 := p2.2.gen
  let seed : Seed := ⟨p0.1, p1.1, p2.1, p3.1⟩
  match s.initResult with
  | some existing =>
    if existing = 0 then
      (Except.ok (), setThreadRng s t (XorShiftRng.fromSeed seed), p3.2)
    else
      (Except.error existing, s, p3.2)
  | none =>
    let s1 : ProcState := { s with registrySeed := seed }
    let step :=
      if registerResult = 0 then
        (sodiumInitCode, advanceThread s1 t sodiumInitDraws)
      else
        (registerResult, s1)
    let s3 := setThreadRng step.2 t (XorShiftRng.fromSeed seed)
    let s4 : ProcState := { s3 with initResult := some step.1 }
    (if step.1 = 0 then Except.ok () else Except.error step.1, s4, p3.2)

/-- A process state with no recorded outcome, registry seed `[0,1,2,3]`,
and no thread slot constructed yet on any thread. -/
def sA : ProcState := ⟨none, ⟨0, 1, 2, 3⟩, fun _ => none⟩

/-- Like `sA` but with a recorded successful outcome `Some(0)`. -/
def sOk : ProcState := ⟨some 0, ⟨0, 1, 2, 3⟩, fun _ => none⟩

/-- Like `sA` but with a recorded failed outcome `Some(1)`. -/
def sErr : ProcState := ⟨some 1, ⟨0, 1, 2, 3⟩, fun _ => none⟩

/-- A concrete entropy source whose draws are 0, 1, 2, 3, 4, ... -/
def eNat : EntropySrc := ⟨fun i => i, 0⟩

/-- The entropy source of the crate's `seeded` test:
`XorShiftRng::from_seed([0, 1, 2, 3])` (lib.rs:201). -/
def eTest : EntropySrc := ⟨XorShiftRng.nthU32 (XorShiftRng.fromSeed ⟨0, 1, 2, 3⟩), 0⟩

theorem getThreadRng_setThreadRng (s : ProcState) (t : Nat) (r : XorShiftRng) :
    getThreadRng (setThreadRng s t r) t = r := by
  simp [getThreadRng, setThreadRng]

theorem setThreadRng_registrySeed (s : ProcState) (t : Nat) (r : XorShiftRng) :
    (setThreadRng s t r).registrySeed = s.registrySeed := rfl

theorem advanceThread_registrySeed (s : ProcState) (t k : Nat) :
    (advanceThread s t k).registrySeed = s.registrySeed := rfl

theorem wordTrace_eq_u32Trace (n : Nat) :
    ∀ (s : ProcState) (t : Nat),
      wordTrace s t n = XorShiftRng.u32Trace (getThreadRng s t) n := by
  induction n with
  | zero => intro s t; rfl
  | succ n ih =>
    intro s t
    simp only [wordTrace, ffiRandom, XorShiftRng.u32Trace, ih,
      getThreadRng_setThreadRng]

theorem bufWrite_outside (n : Nat) :
    ∀ (r : XorShiftRng) (mem : Nat → Nat) (ptr a : Nat),
      a < ptr ∨ ptr + n ≤ a → (bufWrite r mem ptr n).1 a = mem a := by
  induction n with
  | zero => intro r mem ptr a h; rfl
  | succ n ih =>
    intro r mem ptr a h
    have hne : ¬ a = ptr := by omega
    have h2 : a < ptr + 1 ∨ (ptr + 1) + n ≤ a := by omega
    simp only [bufWrite]
    rw [ih _ _ _ _ h2]
    simp [hne]

theorem bufWrite_at (n : Nat) :
    ∀ (r : XorShiftRng) (mem : Nat → Nat) (ptr i : Nat),
      i < n → (bufWrite r mem ptr n).1 (ptr + i) = r.byteAt i := by
  induction n with
  | zero => intro r mem ptr i h; exact absurd h (Nat.not_lt_zero i)
  | succ n ih =>
    intro r mem ptr i h
    cases i with
    | zero =>
      simp only [bufWrite]
      rw [bufWrite_outside n _ _ _ _ (Or.inl (by omega))]
      simp [XorShiftRng.byteAt, XorShiftRng.genU8, XorShiftRng.steps]
    | succ i =>
      have h2 : i < n := by omega
      have hp : ptr + (i + 1) = (ptr + 1) + i := by omega
      simp only [bufWrite]
      rw [hp, ih _ _ _ _ h2]
      simp [XorShiftRng.byteAt, XorShiftRng.genU8, XorShiftRng.steps]

theorem bufWrite_state (n : Nat) :
    ∀ (r : XorShiftRng) (mem : Nat → Nat) (ptr : Nat),
      (bufWrite r mem ptr n).2 = r.steps n := by
  induction n with
  | zero => intro r mem ptr; rfl
  | succ n ih =>
    intro r mem ptr
    simp only [bufWrite, XorShiftRng.steps]
    exact ih _ _ _

/-- C1: for any fixed Seed S, any two Generator instances constructed from S
(on any threads, in any process states) produce identical output: the
sequence of 32-bit values returned by successive `next_word` calls is the
same for both, and `fill_buffer` called with the same length on each
produces byte-identical buffers. -/
theorem c1_seed_determinism (S : Seed) (s1 s2 : ProcState) (t1 t2 : Nat)
    (h1 : getThreadRng s1 t1 = XorShiftRng.fromSeed S)
    (h2 : getThreadRng s2 t2 = XorShiftRng.fromSeed S)
    (n : Nat) (mem1 mem2 : Nat → Nat) (p1 p2 : Nat) :
    wordTrace s1 t1 n = wordTrace s2 t2 n ∧
    ∀ i, i < n →
      (ffiBuf s1 t1 mem1 p1 n).1 (p1 + i) = (ffiBuf s2 t2 mem2 p2 n).1 (p2 + i) := by
  constructor
  · rw [wordTrace_eq_u32Trace, wordTrace_eq_u32Trace, h1, h2]
  · intro i hi
    have e1 : (ffiBuf s1 t1 mem1 p1 n).1 (p1 + i)
        = XorShiftRng.byteAt (getThreadRng s1 t1) i := bufWrite_at n _ _ _ _ hi
    have e2 : (ffiBuf s2 t2 mem2 p2 n).1 (p2 + i)
        = XorShiftRng.byteAt (getThreadRng s2 t2) i := bufWrite_at n _ _ _ _ hi
    rw [e1, e2, h1, h2]

/-- Witness for C1: two fresh generators seeded from `[0,1,2,3]` on
different threads of different process states agree on the first two
`next_word` outputs and on a buffer byte. -/
theorem c1_seed_determinism_witness :
    wordTrace sA 0 2 = wordTrace sOk 5 2 ∧
    (ffiBuf sA 0 (fun _ => 0) 0 2).1 (0 + 1) = (ffiBuf sOk 5 (fun _ => 9) 7 2).1 (7 + 1) :=
  ⟨(c1_seed_determinism ⟨0, 1, 2, 3⟩ sA sOk 0 5 rfl rfl 2 (fun _ => 0) (fun _ => 9) 0 7).1,
   (c1_seed_determinism ⟨0, 1, 2, 3⟩ sA sOk 0 5 rfl rfl 2 (fun _ => 0) (fun _ => 9) 0 7).2
     1 (by decide)⟩

/-- C2: once a first call has recorded a failure code, every subsequent
`init_with_rng` call, on any thread, with any entropy source and any host
behaviour, returns `Err` with that identical stored code and leaves the
process state untouched (in particular no registration attempt occurs). -/
theorem c2_sticky_failure (s : ProcState) (t : Nat) (e : EntropySrc)
    (reg sc : Int) (k : Nat) (code : Int)
    (hs : s.initResult = some code) (hne : code ≠ 0) :
    (initWithRng s t e reg sc k).1 = Except.error code ∧
    (initWithRng s t e reg sc k).2.1 = s := by
  simp [initWithRng, hs, hne]

/-- Witness for C2: with recorded outcome `Some(1)` the call returns
`Err(1)` and changes nothing. -/
theorem c2_sticky_failure_witness :
    (initWithRng sErr 0 eNat 0 0 0).1 = Except.error 1 ∧
    (initWithRng sErr 0 eNat 0 0 0).2.1 = sErr :=
  c2_sticky_failure sErr 0 eNat 0 0 0 1 rfl (by decide)

/-- C3: if a call has recorded outcome `Some(0)`, every subsequent
`init_with_rng` call returns `Ok`, with any entropy source. -/
theorem c3_idempotent_success (s : ProcState) (t : Nat) (e : EntropySrc)
    (reg sc : Int) (k : Nat) (hs : s.initResult = some 0) :
    (initWithRng s t e reg sc k).1 = Except.ok () := by
  simp [initWithRng, hs]

/-- Witness for C3: with recorded outcome `Some(0)` the call returns `Ok`. -/
theorem c3_idempotent_success_witness :
    (initWithRng sOk 0 eNat 0 0 0).1 = Except.ok () :=
  c3_idempotent_success sOk 0 eNat 0 0 0 rfl

/-- C7: `ffi::buf` with length 0 performs no writes; with length `n` it
writes exactly the bytes at offsets `0..n-1` from the given pointer (each
the next byte draw of the calling thread's generator) and leaves every
address outside `[ptr, ptr+n)` unchanged. -/
theorem c7_buffer_bounds (s : ProcState) (t : Nat) (mem : Nat → Nat) (ptr n : Nat) :
    (ffiBuf s t mem ptr 0).1 = mem ∧
    (∀ a, a < ptr ∨ ptr + n ≤ a → (ffiBuf s t mem ptr n).1 a = mem a) ∧
    (∀ i, i < n → (ffiBuf s t mem ptr n).1 (ptr + i)
      = XorShiftRng.byteAt (getThreadRng s t) i) := by
  refine ⟨rfl, ?_, ?_⟩
  · intro a ha
    exact bufWrite_outside n _ _ _ _ ha
  · intro i hi
    exact bufWrite_at n _ _ _ _ hi

/-- Witness for C7: filling 3 bytes at pointer 2 leaves address 1 and
address 5 unchanged and writes the generator's first byte at offset 0. -/
theorem c7_buffer_bounds_witness :
    (ffiBuf sA 0 (fun _ => 7) 2 3).1 1 = 7 ∧
    (ffiBuf sA 0 (fun _ => 7) 2 3).1 5 = 7 ∧
    (ffiBuf sA 0 (fun _ => 7) 2 3).1 (2 + 0) = XorShiftRng.byteAt (getThreadRng sA 0) 0 :=
  ⟨(c7_buffer_bounds sA 0 (fun _ => 7) 2 3).2.1 1 (Or.inl (by decide)),
   (c7_buffer_bounds sA 0 (fun _ => 7) 2 3).2.1 5 (Or.inr (by decide)),
   (c7_buffer_bounds sA 0 (fun _ => 7) 2 3).2.2 0 (by decide)⟩

/-- C10: `ffi::random` and `ffi::buf` share one per-thread generator: a
`fill_buffer` of `n` bytes advances the calling thread's generator by `n`
draws (one `next_u32` step per byte), and a subsequent `next_word` on that
thread continues from the advanced state, returning the `n`-th 32-bit value
of the shared sequence. -/
theorem c10_shared_thread_generator (s : ProcState) (t : Nat)
    (mem : Nat → Nat) (ptr n : Nat) :
    getThreadRng (ffiBuf s t mem ptr n).2 t = (getThreadRng s t).steps n ∧
    (ffiRandom (ffiBuf s t mem ptr n).2 t).1 = ((getThreadRng s t).steps n).nextU32.1 := by
  have h1 : getThreadRng (ffiBuf s t mem ptr n).2 t = (getThreadRng s t).steps n := by
    show getThreadRng (setThreadRng s t (bufWrite (getThreadRng s t) mem ptr n).2) t = _
    rw [getThreadRng_setThreadRng, bufWrite_state]
  exact ⟨h1, by simp [ffiRandom, h1]⟩

/-- C5: on a first initialization (`INIT_RESULT = None`), the recorded
outcome is the registration code when registration fails, and the
`sodium_init` code when registration returns 0 (so `sodium_init`'s code can
only matter after a 0 from registration); the call returns `Ok(())` iff the
combined code is 0 and otherwise `Err` with that code verbatim. The
statement holds for every `sodium_init` code and draw count, which is how
the model expresses that a non-zero registration result short-circuits
without attempting `sodium_init`. -/
theorem c5_first_init_result (s : ProcState) (t : Nat) (e : EntropySrc)
    (reg sc : Int) (k : Nat) (hs : s.initResult = none) :
    (initWithRng s t e reg sc k).2.1.initResult = some (if reg = 0 then sc else reg) ∧
    ((initWithRng s t e reg sc k).1 = Except.ok () ↔ (if reg = 0 then sc else reg) = 0) ∧
    ((if reg = 0 then sc else reg) ≠ 0 →
      (initWithRng s t e reg sc k).1 = Except.error (if reg = 0 then sc else reg)) := by
  by_cases hr : reg = 0 <;> by_cases hc : sc = 0 <;>
    simp [initWithRng, hs, hr, hc]

/-- Witness for C5: registration code 1 with `sodium_init` code 2 records
`Some(1)` and returns `Err(1)`. -/
theorem c5_first_init_result_witness :
    (initWithRng sA 0 eNat 1 2 3).2.1.initResult = some (if (1 : Int) = 0 then 2 else 1) ∧
    (initWithRng sA 0 eNat 1 2 3).1 = Except.error (if (1 : Int) = 0 then 2 else 1) :=
  ⟨(c5_first_init_result sA 0 eNat 1 2 3 rfl).1,
   (c5_first_init_result sA 0 eNat 1 2 3 rfl).2.2 (by decide)⟩

/-- C6: on a first initialization, whatever re-entrant draws the host
library makes during `sodium_init` (any count `k`), the calling thread's
generator is reset to the derived seed before `init_with_rng` returns, so
the next `next_word` on that thread is the first value of the seed's
sequence. -/
theorem c6_reset_after_init (s : ProcState) (t : Nat) (e : EntropySrc)
    (reg sc : Int) (k : Nat) (hs : s.initResult = none) :
    getThreadRng (initWithRng s t e reg sc k).2.1 t
      = XorShiftRng.fromSeed (derivedSeed e) ∧
    (ffiRandom (initWithRng s t e reg sc k).2.1 t).1
      = (XorShiftRng.fromSeed (derivedSeed e)).nextU32.1 := by
  have h1 : getThreadRng (initWithRng s t e reg sc k).2.1 t
      = XorShiftRng.fromSeed (derivedSeed e) := by
    by_cases hr : reg = 0 <;>
      simp [initWithRng, hs, hr, EntropySrc.gen, derivedSeed, getThreadRng,
        setThreadRng]
  exact ⟨h1, by simp [ffiRandom, h1]⟩

/-- Witness for C6: after a first initialization with 5 re-entrant draws,
thread 0's generator holds the seed `[0,1,2,3]` drawn from `eNat` and the
next word is the first output for that seed. -/
theorem c6_reset_after_init_witness :
    getThreadRng (initWithRng sA 0 eNat 0 0 5).2.1 0
      = XorShiftRng.fromSeed (derivedSeed eNat) ∧
    (ffiRandom (initWithRng sA 0 eNat 0 0 5).2.1 0).1
      = (XorShiftRng.fromSeed (derivedSeed eNat)).nextU32.1 :=
  c6_reset_after_init sA 0 eNat 0 0 5 rfl

/-- C8: every `init_with_rng` call draws exactly four values from the
entropy source (even when it short-circuits on a recorded outcome), the
seed is exactly those four values in draw order, and the drawn seed is what
reaches the registry (first initialization) or the calling thread's reset
generator (short-circuit on success). -/
theorem c8_seed_derivation (s : ProcState) (t : Nat) (e : EntropySrc)
    (reg sc : Int) (k : Nat) :
    (initWithRng s t e reg sc k).2.2.pos = e.pos + 4 ∧
    (initWithRng s t e reg sc k).2.2.stream = e.stream ∧
    (s.initResult = none →
      (initWithRng s t e reg sc k).2.1.registrySeed = derivedSeed e) ∧
    (s.initResult = some 0 →
      getThreadRng (initWithRng s t e reg sc k).2.1 t
        = XorShiftRng.fromSeed (derivedSeed e)) := by
  cases hs : s.initResult with
  | none =>
    refine ⟨?_, ?_, ?_, ?_⟩ <;>
      by_cases hr : reg = 0 <;>
        simp +arith [initWithRng, hs, hr, EntropySrc.gen, derivedSeed, getThreadRng,
          setThreadRng, setThreadRng_registrySeed, advanceThread_registrySeed]
  | some v =>
    refine ⟨?_, ?_, ?_, ?_⟩ <;>
      by_cases hv : v = 0 <;>
        simp +arith [initWithRng, hs, hv, EntropySrc.gen, derivedSeed, getThreadRng,
          setThreadRng, setThreadRng_registrySeed, advanceThread_registrySeed]

/-- Witness for C8: one first-initialization call and one short-circuit
call, both drawing the four values 0,1,2,3 from `eNat`. -/
theorem c8_seed_derivation_witness :
    (initWithRng sA 0 eNat 0 0 0).2.2.pos = 0 + 4 ∧
    (initWithRng sA 0 eNat 0 0 0).2.1.registrySeed = derivedSeed eNat ∧
    getThreadRng (initWithRng sOk 0 eNat 0 0 0).2.1 0
      = XorShiftRng.fromSeed (derivedSeed eNat) :=
  ⟨(c8_seed_derivation sA 0 eNat 0 0 0).1,
   (c8_seed_derivation sA 0 eNat 0 0 0).2.2.1 rfl,
   (c8_seed_derivation sOk 0 eNat 0 0 0).2.2.2 rfl⟩

/-- C9: a first call that fails is not atomic: on the failure path the
registry seed has already been overwritten with the newly derived seed, the
calling thread's generator has been reset to that seed, and the failure
code is recorded, before the `Err` is returned. -/
theorem c9_failure_not_atomic (s : ProcState) (t : Nat) (e : EntropySrc)
    (reg sc : Int) (k : Nat) (hs : s.initResult = none)
    (hf : (if reg = 0 then sc else reg) ≠ 0) :
    (initWithRng s t e reg sc k).1 = Except.error (if reg = 0 then sc else reg) ∧
    (initWithRng s t e reg sc k).2.1.registrySeed = derivedSeed e ∧
    getThreadRng (initWithRng s t e reg sc k).2.1 t
      = XorShiftRng.fromSeed (derivedSeed e) ∧
    (initWithRng s t e reg sc k).2.1.initResult
      = some (if reg = 0 then sc else reg) := by
  refine ⟨(c5_first_init_result s t e reg sc k hs).2.2 hf, ?_,
    (c6_reset_after_init s t e reg sc k hs).1,
    (c5_first_init_result s t e reg sc k hs).1⟩
  by_cases hr : reg = 0 <;>
    simp +arith [initWithRng, hs, hr, EntropySrc.gen, derivedSeed,
      setThreadRng_registrySeed, advanceThread_registrySeed]

/-- Witness for C9: a failed first call with registration code 1 still
leaves the drawn seed `[0,1,2,3]` in the registry and in the calling
thread's generator, with `Some(1)` recorded. -/
theorem c9_failure_not_atomic_witness :
    (initWithRng sA 0 eNat 1 0 0).1 = Except.error (if (1 : Int) = 0 then 0 else 1) ∧
    (initWithRng sA 0 eNat 1 0 0).2.1.registrySeed = derivedSeed eNat ∧
    getThreadRng (initWithRng sA 0 eNat 1 0 0).2.1 0
      = XorShiftRng.fromSeed (derivedSeed eNat) ∧
    (initWithRng sA 0 eNat 1 0 0).2.1.initResult
      = some (if (1 : Int) = 0 then 0 else 1) :=
  c9_failure_not_atomic sA 0 eNat 1 0 0 rfl (by decide)

/-- State after the first `init_with_rng` call of the crate's `seeded` test
(lib.rs:201-202): entropy `eTest`, thread 0, successful registration and
`sodium_init` (both codes 0), 38 re-entrant byte draws during
`sodium_init`; the initial ambient registry seed is arbitrary (`[7,7,7,7]`). -/
def testRun1 := initWithRng ⟨none, ⟨7, 7, 7, 7⟩, fun _ => none⟩ 0 eTest 0 0 38

/-- The second `init_with_rng` call of the `seeded` test (lib.rs:205), on
the same thread, continuing the same entropy source. -/
def testRun2 := initWithRng testRun1.2.1 0 testRun1.2.2 0 0 0

/-- The seed the first call derives from `eTest`: draws 0-3. -/
def testSeed1 : Seed := ⟨3, 2058, 6168, 3⟩

/-- The seed the second call derives from `eTest`: draws 4-7. -/
def testSeed2 : Seed := ⟨6168, 4194378, 8394882, 8388745⟩

/-- C4: evidence that the claim's behaviour is absent from the code. In the
trace of the crate's own `seeded` test, the second `init_with_rng` call
(recorded outcome `Some(0)`) returns `Ok` and resets the calling thread's
generator to the freshly drawn seed, but leaves the registry seed at the
first call's seed; a thread whose generator is lazily constructed
afterwards (thread 1) is therefore seeded with the old seed, and its byte
sequence diverges from the calling thread's from the very first byte
(24 versus 89) — so the test's assertion that children spawned after the
second call reproduce the main thread's keys cannot hold. -/
theorem c4_reseed_skips_registry :
    testSeed1 = derivedSeed eTest ∧
    testSeed2 = derivedSeed testRun1.2.2 ∧
    testRun2.1 = Except.ok () ∧
    testRun2.2.1.registrySeed = testSeed1 ∧
    getThreadRng testRun2.2.1 0 = XorShiftRng.fromSeed testSeed2 ∧
    getThreadRng testRun2.2.1 1 = XorShiftRng.fromSeed testSeed1 ∧
    XorShiftRng.byteAt (XorShiftRng.fromSeed testSeed1) 0
      ≠ XorShiftRng.byteAt (XorShiftRng.fromSeed testSeed2) 0 :=
  ⟨by decide, by decide, rfl, by decide, by decide, by decide, by decide⟩
